import Mathlib

/-!
Shallow embedding of `CryptoCoarseFundamentalUniverseSelectionAlgorithm.py`.

The Python class has two pieces of logic that the properties below are about:

* `UniverseSelectionFilter(self, data)` (lines 45-55): a list comprehension
  keeping the records with `Volume >= 100 and VolumeInUsd > 10000`, then
  `sorted(filtered, key=lambda datum: datum.VolumeInUsd, reverse=True)[:10]`,
  then the projection to `datum.Symbol`.
* the history sanity check inside `Initialize` (lines 37-43): raise
  `ValueError` when the historical replay did not return exactly 2 snapshots,
  or when a snapshot has fewer than 100 records.

Python's `sorted` is a stable sort; with `reverse=True` every comparison is
reversed while stability is kept, so the result is the unique stable sort of
`filtered` under the total preorder "larger `VolumeInUsd` first, ties in
input order".  `List.mergeSort` with the boolean comparison
`usdDescLe a b = (b.VolumeInUsd ≤ a.VolumeInUsd)` is a stable sort under the
same total preorder, hence computes the same list; we use it as the embedding
of the `sorted` call.  Volumes are modelled as exact integers: the claims are
order-theoretic and do not depend on fractional volume values.
-/

namespace CryptoCoarse

/-- One row of the coarse-fundamental snapshot handed to the filter.  The
fields mirror exactly the attributes the Python code reads from a
`CryptoUniverseConfig` datum: `Symbol`, `Volume`, `VolumeInUsd`. -/
structure CandidateRecord where
  Symbol : String
  Volume : Int
  VolumeInUsd : Int
  deriving DecidableEq, Repr

/-- Guard of the list comprehension on lines 50-52:
`datum.Volume >= 100 and datum.VolumeInUsd > 10000`. -/
def passesFilter (datum : CandidateRecord) : Bool :=
  decide (100 ≤ datum.Volume) && decide (10000 < datum.VolumeInUsd)

/-- Boolean comparison realising `key=lambda datum: datum.VolumeInUsd,
reverse=True`: `a` may come before `b` iff `b.VolumeInUsd ≤ a.VolumeInUsd`. -/
def usdDescLe (a b : CandidateRecord) : Bool :=
  decide (b.VolumeInUsd ≤ a.VolumeInUsd)

/-- The local variable `sorted_by_volume_in_usd` of line 53: the filtered
records, stably sorted by `VolumeInUsd` descending, truncated to 10 by the
slice `[:10]`. -/
def sorted_by_volume_in_usd (data : List CandidateRecord) : List CandidateRecord :=
  ((data.filter passesFilter).mergeSort usdDescLe).take 10

/-- Lines 50-55 of the source: filter, sort descending by `VolumeInUsd`,
truncate to 10, return the symbols. -/
def UniverseSelectionFilter (data : List CandidateRecord) : List String :=
  (sorted_by_volume_in_usd data).map CandidateRecord.Symbol

/-- The comparison `usdDescLe` is transitive. -/
theorem usdDescLe_trans (a b c : CandidateRecord) :
    usdDescLe a b → usdDescLe b c → usdDescLe a c := by
  simp only [usdDescLe, decide_eq_true_eq]
  omega

/-- The comparison `usdDescLe` is total. -/
theorem usdDescLe_total (a b : CandidateRecord) : usdDescLe a b || usdDescLe b a := by
  simp only [usdDescLe, Bool.or_eq_true, decide_eq_true_eq]
  omega

/-- Every record surviving the sort-and-truncate pipeline is an input record
that passes the guard. -/
theorem mem_sorted_by_volume_in_usd {d : CandidateRecord} {data : List CandidateRecord}
    (h : d ∈ sorted_by_volume_in_usd data) : d ∈ data ∧ passesFilter d = true := by
  unfold sorted_by_volume_in_usd at h
  have h1 : d ∈ (data.filter passesFilter).mergeSort usdDescLe :=
    (List.take_sublist _ _).subset h
  rw [List.mem_mergeSort, List.mem_filter] at h1
  exact h1

/-- C1: every symbol returned by `UniverseSelectionFilter` is the symbol of
some input record satisfying `Volume >= 100 ∧ VolumeInUsd > 10000`, and the
whole output is the symbol image of such records, so no failing record
contributes a symbol. -/
theorem universeSelectionFilter_sound (data : List CandidateRecord) :
    ∃ l : List CandidateRecord,
      (∀ d ∈ l, d ∈ data ∧ 100 ≤ d.Volume ∧ 10000 < d.VolumeInUsd) ∧
      UniverseSelectionFilter data = l.map CandidateRecord.Symbol := by
  refine ⟨sorted_by_volume_in_usd data, ?_, rfl⟩
  intro d hd
  have h := mem_sorted_by_volume_in_usd hd
  have h2 : 100 ≤ d.Volume ∧ 10000 < d.VolumeInUsd := by
    simpa [passesFilter, decide_eq_true_eq] using h.2
  exact ⟨h.1, h2.1, h2.2⟩

/-- C2: the records whose symbols `UniverseSelectionFilter` returns, in output
order, are pairwise ordered by `VolumeInUsd` descending. -/
theorem universeSelectionFilter_sorted_desc (data : List CandidateRecord) :
    List.Pairwise (fun a b : CandidateRecord => b.VolumeInUsd ≤ a.VolumeInUsd)
      (sorted_by_volume_in_usd data) ∧
    UniverseSelectionFilter data = (sorted_by_volume_in_usd data).map CandidateRecord.Symbol := by
  refine ⟨?_, rfl⟩
  have hs := List.sorted_mergeSort usdDescLe_trans usdDescLe_total (data.filter passesFilter)
  have h2 : List.Pairwise (fun a b : CandidateRecord => b.VolumeInUsd ≤ a.VolumeInUsd)
      ((data.filter passesFilter).mergeSort usdDescLe) := by
    refine hs.imp ?_
    intro a b h
    simpa [usdDescLe, decide_eq_true_eq] using h
  exact h2.sublist (List.take_sublist _ _)

/-- C3: the output of `UniverseSelectionFilter` never has more than 10
symbols. -/
theorem universeSelectionFilter_length_le (data : List CandidateRecord) :
    (UniverseSelectionFilter data).length ≤ 10 := by
  simp only [UniverseSelectionFilter, sorted_by_volume_in_usd, List.length_map,
    List.length_take]
  omega

/-- C6: the empty candidate list yields the empty symbol list; the function is
total, so an empty result is an ordinary value, not a failure. -/
theorem universeSelectionFilter_empty : UniverseSelectionFilter [] = [] := by
  simp [UniverseSelectionFilter, sorted_by_volume_in_usd]

/-- C10: the returned symbols are the symbol image of a sub-multiset of the
passing input records (each input record used at most once, duplicates kept),
and the output length is exactly `min 10 (number of passing records)`. -/
theorem universeSelectionFilter_output_shape (data : List CandidateRecord) :
    (sorted_by_volume_in_usd data).Subperm (data.filter passesFilter) ∧
    UniverseSelectionFilter data = (sorted_by_volume_in_usd data).map CandidateRecord.Symbol ∧
    (UniverseSelectionFilter data).length = min 10 (data.filter passesFilter).length := by
  refine ⟨?_, rfl, ?_⟩
  · exact (List.take_sublist _ _).subperm.trans (List.mergeSort_perm _ _).subperm
  · simp [UniverseSelectionFilter, sorted_by_volume_in_usd]

/-- Record `(A, volume=50, volumeInUsd=6000)` of the worked example. -/
def recA : CandidateRecord := ⟨"A", 50, 6000⟩

/-- Record `(B, volume=150, volumeInUsd=12000)` of the worked example. -/
def recB : CandidateRecord := ⟨"B", 150, 12000⟩

/-- Record `(C, volume=200, volumeInUsd=50000)` of the worked example. -/
def recC : CandidateRecord := ⟨"C", 200, 50000⟩

/-- Record `(D, volume=300, volumeInUsd=9000)` of the worked example. -/
def recD : CandidateRecord := ⟨"D", 300, 9000⟩

/-- C4: on the example input, A fails `Volume >= 100`, D fails
`VolumeInUsd > 10000`, and the surviving B, C are returned sorted by
`VolumeInUsd` descending: `[C, B]`. -/
theorem universeSelectionFilter_example :
    UniverseSelectionFilter [recA, recB, recC, recD] = ["C", "B"] := by
  have hf : List.filter passesFilter [recA, recB, recC, recD] = [recB, recC] := rfl
  have hm : List.mergeSort [recB, recC] usdDescLe = [recC, recB] := by
    rw [List.mergeSort]
    simp [List.splitInTwo, List.merge, usdDescLe, recB, recC]
  unfold UniverseSelectionFilter sorted_by_volume_in_usd
  rw [hf, hm]
  rfl

/-- C5: the sort on line 53 is stable.  Two passing candidates `a`, `b` with
equal `VolumeInUsd` come out of the sort in their input order, both when `a`
precedes `b` in the input and when, after swapping them, `b` precedes `a`: in
each case the earlier one is still earlier in the sorted list that
`sorted_by_volume_in_usd` truncates and `UniverseSelectionFilter` projects. -/
theorem universeSelectionFilter_stable
    (l1 l2 l3 : List CandidateRecord) (a b : CandidateRecord)
    (husd : a.VolumeInUsd = b.VolumeInUsd)
    (hpa : passesFilter a = true) (hpb : passesFilter b = true) :
    [a, b].Sublist (((l1 ++ a :: l2 ++ b :: l3).filter passesFilter).mergeSort usdDescLe) ∧
    [b, a].Sublist (((l1 ++ b :: l2 ++ a :: l3).filter passesFilter).mergeSort usdDescLe) := by
  have hab : usdDescLe a b = true := by
    simp [usdDescLe, husd]
  have hba : usdDescLe b a = true := by
    simp [usdDescLe, husd]
  constructor
  · refine List.pair_sublist_mergeSort usdDescLe_trans usdDescLe_total hab ?_
    have e1 : (l1 ++ a :: l2 ++ b :: l3).filter passesFilter =
        l1.filter passesFilter ++
          a :: (l2.filter passesFilter ++ b :: l3.filter passesFilter) := by
      simp [List.filter_cons, hpa, hpb]
    rw [e1]
    exact List.sublist_append_of_sublist_right
      (List.Sublist.cons₂ a (List.sublist_append_of_sublist_right
        (List.Sublist.cons₂ b (List.nil_sublist _))))
  · refine List.pair_sublist_mergeSort usdDescLe_trans usdDescLe_total hba ?_
    have e2 : (l1 ++ b :: l2 ++ a :: l3).filter passesFilter =
        l1.filter passesFilter ++
          b :: (l2.filter passesFilter ++ a :: l3.filter passesFilter) := by
      simp [List.filter_cons, hpa, hpb]
    rw [e2]
    exact List.sublist_append_of_sublist_right
      (List.Sublist.cons₂ b (List.sublist_append_of_sublist_right
        (List.Sublist.cons₂ a (List.nil_sublist _))))

/-- Passing record `(E, 150, 20000)`, tied with `recF` on `VolumeInUsd`. -/
def recE : CandidateRecord := ⟨"E", 150, 20000⟩

/-- Passing record `(F, 200, 20000)`, tied with `recE` on `VolumeInUsd`. -/
def recF : CandidateRecord := ⟨"F", 200, 20000⟩

/-- Witness for C5 at the concrete tie `recE`, `recF`. -/
theorem universeSelectionFilter_stable_witness :
    recE.VolumeInUsd = recF.VolumeInUsd ∧
    passesFilter recE = true ∧ passesFilter recF = true ∧
    ([recE, recF].Sublist
        ((([] ++ recE :: [] ++ recF :: []).filter passesFilter).mergeSort usdDescLe) ∧
      [recF, recE].Sublist
        ((([] ++ recF :: [] ++ recE :: []).filter passesFilter).mergeSort usdDescLe)) :=
  ⟨rfl, rfl, rfl,
    universeSelectionFilter_stable [] [] [] recE recF rfl rfl rfl⟩

/-- Mutable attributes a `QCAlgorithm` instance carries into a backtest: the
values `Initialize` sets on lines 23-33 of the source, plus the diagnostic
log that `OnSecuritiesChanged` appends to.  `UniverseSelectionFilter` reads
and writes none of them. -/
structure AlgorithmState where
  startDate : Int × Int × Int
  endDate : Int × Int × Int
  cash : Int
  logLines : List String
  deriving DecidableEq, Repr

/-- State-passing semantics of one invocation of the method
`UniverseSelectionFilter`: its body (lines 50-55) mentions only the `data`
parameter and local names, touching no attribute of `self`, so a call returns
the pure result and leaves the instance state as it was. -/
def UniverseSelectionFilterCall (s : AlgorithmState) (data : List CandidateRecord) :
    List String × AlgorithmState :=
  (UniverseSelectionFilter data, s)

/-- C7: the filter is deterministic and stateless: at any two points of a
call sequence (any two instance states), equal candidate lists produce equal
outputs, and the invocation leaves the instance state unchanged. -/
theorem universeSelectionFilter_pure (s₁ s₂ : AlgorithmState) (data : List CandidateRecord) :
    (UniverseSelectionFilterCall s₁ data).1 = (UniverseSelectionFilterCall s₂ data).1 ∧
    (UniverseSelectionFilterCall s₁ data).2 = s₁ :=
  ⟨rfl, rfl⟩

/-- Heap-passing semantics of one invocation with respect to the caller's
candidate list: the body only reads `data` (the comprehension on line 50 and
`sorted` on line 53 build new lists), so the call returns the output next to
the input list exactly as the caller passed it. -/
def UniverseSelectionFilterWithInput (data : List CandidateRecord) :
    List String × List CandidateRecord :=
  (UniverseSelectionFilter data, data)

/-- C9: the filter has no side effect on its argument: after a call the
caller's candidate list is element-for-element the list it passed in, and the
returned value is the pure function of that list. -/
theorem universeSelectionFilter_frame (data : List CandidateRecord) :
    (UniverseSelectionFilterWithInput data).2 = data ∧
    (UniverseSelectionFilterWithInput data).1 = UniverseSelectionFilter data :=
  ⟨rfl, rfl⟩

/-- Loop of lines 41-43: raise `ValueError("Unexpected historical universe
data!")` at the first snapshot with fewer than 100 records. -/
def checkHistorySnapshots : List (List CandidateRecord) → Except String Unit
  | [] => Except.ok ()
  | dataForDate :: rest =>
    if dataForDate.length < 100 then
      Except.error "Unexpected historical universe data!"
    else
      checkHistorySnapshots rest

/-- Validation performed by `Initialize` (lines 37-43) on the snapshot list
the historical replay returned: raise `ValueError` when the snapshot count is
not 2, else scan the snapshots for one with fewer than 100 records.  The
configuration calls of lines 23-35 set engine state and raise nothing, so
this check is the only error path of `Initialize`. -/
def Initialize (history : List (List CandidateRecord)) : Except String Unit :=
  if history.length ≠ 2 then
    Except.error ("Unexpected history count " ++ toString history.length ++ "! Expected 2")
  else
    checkHistorySnapshots history

/-- Scanning the snapshots errors exactly when some snapshot is short. -/
theorem checkHistorySnapshots_error_iff (hs : List (List CandidateRecord)) :
    (∃ msg, checkHistorySnapshots hs = Except.error msg) ↔ ∃ d ∈ hs, d.length < 100 := by
  induction hs with
  | nil => simp [checkHistorySnapshots]
  | cons d rest ih =>
    by_cases hd : d.length < 100
    · simp [checkHistorySnapshots, hd]
    · simp [checkHistorySnapshots, hd, ih]

/-- C8: `Initialize` raises a `ValueError` if and only if the historical
replay returned a number of snapshots different from 2 or some snapshot has
fewer than 100 records; otherwise it completes without error. -/
theorem initialize_error_iff (history : List (List CandidateRecord)) :
    (∃ msg, Initialize history = Except.error msg) ↔
      history.length ≠ 2 ∨ ∃ d ∈ history, d.length < 100 := by
  by_cases h : history.length = 2
  · simp [Initialize, h, checkHistorySnapshots_error_iff]
  · simp [Initialize, h]

end CryptoCoarse
